import Mathlib

/-!
Shallow embedding of the `di` dependency-injection container
(package `di`, file `container.go` of SOG-web/goinit).

The Go container is a passive data structure; resolution is modelled as
explicit state passing over a `Container` record.  Go's `reflect` layer is
modelled by a small nominal type universe `Ty` carrying the `reflect.Kind`
and the list of interfaces a type implements.  Instance identity (Go pointer
identity) is modelled by a `fresh` allocation counter threaded through
construction: a constructor body receives the current counter and returns
the (possibly incremented) counter, so "the constructor executed" is
observable as counter growth and "identical instance" as equality of ids.
The `sync` machinery (mutexes, atomic flag) collapses in this sequential
model: double-checked locking becomes a single cache lookup, and the
per-key creation mutexes are not represented.  Possible non-termination of
recursive resolution is handled with a fuel parameter.
-/

namespace DI

/-- The subset of `reflect.Kind` relevant to the container code. -/
inductive GoKind where
  | kBool | kInt | kInt8 | kInt16 | kInt32 | kInt64
  | kUint | kUint8 | kUint16 | kUint32 | kUint64 | kUintptr
  | kFloat32 | kFloat64 | kComplex64 | kComplex128
  | kString | kStruct | kPtr | kInterface | kSlice | kFunc | kMap | kChan
  deriving DecidableEq, Repr

/-- Go types as the container sees them: a named type with its kind and the
interfaces it implements, or a slice type. Type identity is nominal, as in
`reflect.Type` equality. -/
inductive Ty where
  | named (nm : String) (kind : GoKind) (impls : List String)
  | sliceT (elem : Ty)
  deriving DecidableEq, Repr

/-- Model of `reflect.Type.Kind()`. -/
def Ty.kind : Ty → GoKind
  | .named _ k _ => k
  | .sliceT _ => GoKind.kSlice

/-- Model of `reflect.Type.String()`. -/
def Ty.str : Ty → String
  | .named nm _ _ => nm
  | .sliceT e => "[]" ++ e.str

/-- Model of `t.Implements(iface)` for a named interface. -/
def implementsIface : Ty → String → Bool
  | .named nm k impls, iname => (k == GoKind.kInterface && nm == iname) || impls.contains iname
  | .sliceT _, _ => false

/-- Embeds `isErrorType` from the source: the type implements the `error` interface. -/
def isErrorType (t : Ty) : Bool := implementsIface t "error"

/-- Model of `reflect.Type.AssignableTo`: identical types, or implementing the target
interface. -/
def assignableTo (src dst : Ty) : Bool :=
  src == dst ||
    (match dst with
     | .named nm GoKind.kInterface _ => implementsIface src nm
     | _ => false)

/-- Embeds `isPrimitiveKind` from the source. -/
def isPrimitiveKind (k : GoKind) : Bool :=
  match k with
  | .kBool => true
  | .kInt => true
  | .kInt8 => true
  | .kInt16 => true
  | .kInt32 => true
  | .kInt64 => true
  | .kUint => true
  | .kUint8 => true
  | .kUint16 => true
  | .kUint32 => true
  | .kUint64 => true
  | .kUintptr => true
  | .kFloat32 => true
  | .kFloat64 => true
  | .kComplex64 => true
  | .kComplex128 => true
  | .kString => true
  | _ => false

/-- Embeds `typeKey`: type identity plus tag. -/
structure TypeKey where
  typ : Ty
  tag : String
  deriving DecidableEq, Repr

/-- Model of `typeKey.String()`. -/
def TypeKey.str (tk : TypeKey) : String :=
  if tk.tag = "" then tk.typ.str else tk.typ.str ++ ":" ++ tk.tag

/-- Runtime values: an object with its dynamic type and an identity id, or a
slice value. -/
inductive Value where
  | obj (ty : Ty) (id : Nat)
  | sliceV (elem : Ty) (vals : List Value)

/-- Model of `reflect.ValueOf(v).Type()`. -/
def Value.dynTy : Value → Ty
  | .obj t _ => t
  | .sliceV e _ => Ty.sliceT e

inductive Scope where
  | Singleton
  | Transient
  deriving DecidableEq, Repr

/-- A reflective constructor: parameter types, declared result type, the type
of the optional second (error) result, and the body.  The body receives the
resolved arguments and the allocation counter and returns the result value,
the error output (when the constructor has two results, `some` models a
non-nil error), and the new counter. -/
structure Ctor where
  params : List Ty
  retTy : Ty
  errOut : Option Ty
  body : List Value → Nat → Value × Option String × Nat

/-- Embeds `registration`: reflective constructor or direct factory, plus scope and
tag. -/
structure Registration where
  ctor : Option Ctor
  scope : Scope
  tag : String
  directFactory : Option (Nat → (Except String Value) × Nat)

/-- Embeds `Container`: registrations keyed by `typeKey`, the singleton cache keyed
by `typeKey.String()`, the in-flight resolution guard set, the closed flag,
and the allocation counter instrumenting instance identity. -/
structure Container where
  registrations : List (TypeKey × List Registration)
  singletons : List (String × Value)
  resolving : List String
  closed : Bool
  fresh : Nat

/-- Embeds `New()`. -/
def Container.new : Container :=
  { registrations := [], singletons := [], resolving := [], closed := false, fresh := 0 }

/-- Lookup in the registration map (`c.registrations[key]`). -/
def lookupReg : List (TypeKey × List Registration) → TypeKey → Option (List Registration)
  | [], _ => none
  | (k, l) :: rest, key => if k = key then some l else lookupReg rest key

/-- Append a registration to the list for `key`, creating the list when the
key is absent (`regList.items = append(regList.items, reg)`). -/
def appendReg : List (TypeKey × List Registration) → TypeKey → Registration →
    List (TypeKey × List Registration)
  | [], key, reg => [(key, [reg])]
  | (k, l) :: rest, key, reg =>
    if k = key then (k, l ++ [reg]) :: rest else (k, l) :: appendReg rest key reg

/-- Lookup in the singleton cache (`c.singletons.Load(keyStr)`). -/
def lookupCache : List (String × Value) → String → Option Value
  | [], _ => none
  | (k, v) :: rest, key => if k = key then some v else lookupCache rest key

/-- The loop in `Register` validating constructor parameters: the index of
the first parameter of primitive kind with no untagged registration of its
exact type, if any. -/
def checkParams (regs : List (TypeKey × List Registration)) :
    List Ty → Nat → Option Nat
  | [], _ => none
  | p :: rest, i =>
    if isPrimitiveKind p.kind && (lookupReg regs { typ := p, tag := "" }).isNone
    then some i
    else checkParams regs rest (i + 1)

/-- Embeds `Register[T]`: validates the closed flag, the constructor result type,
the error output, and primitive parameters, then appends the registration. -/
def RegisterF (c : Container) (t : Ty) (ct : Ctor) (scope : Scope) (tag : String) :
    (Except String Unit) × Container :=
  if c.closed then (.error "container is closed", c)
  else if assignableTo ct.retTy t = false then
    (.error ("constructor return type " ++ ct.retTy.str ++ " is not assignable to " ++ t.str), c)
  else if (match ct.errOut with
           | some et => !(isErrorType et)
           | none => false) then
    (.error "if constructor returns two values, second must be error", c)
  else
    match checkParams c.registrations ct.params 0 with
    | some i =>
      (.error ("constructor parameter " ++ toString i ++ " is primitive and not registered"), c)
    | none =>
      let key : TypeKey := { typ := t, tag := tag }
      let reg : Registration :=
        { ctor := some ct, scope := scope, tag := tag, directFactory := none }
      (.ok (), { c with registrations := appendReg c.registrations key reg })

/-- Embeds `RegisterFactory[T]`: wraps the zero-argument factory (which cannot fail)
and appends the registration without constructor validation. -/
def RegisterFactoryF (c : Container) (t : Ty) (factory : Nat → Value × Nat)
    (scope : Scope) (tag : String) : (Except String Unit) × Container :=
  if c.closed then (.error "container is closed", c)
  else
    let key : TypeKey := { typ := t, tag := tag }
    let reg : Registration :=
      { ctor := none, scope := scope, tag := tag,
        directFactory := some (fun n => (Except.ok (factory n).1, (factory n).2)) }
    (.ok (), { c with registrations := appendReg c.registrations key reg })

/-- Embeds `Provide[T]`: interface types only; registers a constant constructor
returning the supplied instance, as a Singleton. -/
def ProvideF (c : Container) (t : Ty) (impl : Value) (tag : String) :
    (Except String Unit) × Container :=
  if t.kind = GoKind.kInterface then
    RegisterF c t
      { params := [], retTy := t, errOut := none, body := fun _ n => (impl, none, n) }
      Scope.Singleton tag
  else (.error "Provide is for interface types only", c)

/-- The loop in `createInstance` resolving constructor parameters in order,
each with the empty tag, wrapping the first failure with the parameter
index. -/
def resolveArgsAux (resolve : Container → Ty → String → (Except String Value) × Container) :
    List Ty → Nat → Container → (Except String (List Value)) × Container
  | [], _, c => (.ok [], c)
  | p :: rest, i, c =>
    match resolve c p "" with
    | (.error e, c1) =>
      (.error ("failed to resolve parameter " ++ toString i ++ ": " ++ e), c1)
    | (.ok v, c1) =>
      match resolveArgsAux resolve rest (i + 1) c1 with
      | (.error e, c2) => (.error e, c2)
      | (.ok vs, c2) => (.ok (v :: vs), c2)

/-- Embeds `createInstance`: direct factory when present, otherwise resolve the
constructor parameters recursively and call the constructor, propagating a
non-nil second result as an error. -/
def createInstance (resolve : Container → Ty → String → (Except String Value) × Container)
    (c : Container) (reg : Registration) : (Except String Value) × Container :=
  match reg.directFactory with
  | some f =>
    ((f c.fresh).1, { c with fresh := (f c.fresh).2 })
  | none =>
    match reg.ctor with
    | none => (.error "constructor must return T or (T, error)", c)
    | some ct =>
      match resolveArgsAux resolve ct.params 0 c with
      | (.error e, c1) => (.error e, c1)
      | (.ok args, c1) =>
        match ct.errOut with
        | none =>
          (.ok (ct.body args c1.fresh).1, { c1 with fresh := (ct.body args c1.fresh).2.2 })
        | some _ =>
          match (ct.body args c1.fresh).2.1 with
          | some e => (.error e, { c1 with fresh := (ct.body args c1.fresh).2.2 })
          | none => (.ok (ct.body args c1.fresh).1, { c1 with fresh := (ct.body args c1.fresh).2.2 })

/-- One unfolding of `Container.resolveType`, parameterized by the resolver
used for recursive parameter resolution: circular-dependency guard, lookup,
ambiguity check, singleton cache / transient construction.  Guard-set entry
removal on every exit path models the deferred `c.resolving.Delete`. -/
def resolveStep (recur : Container → Ty → String → (Except String Value) × Container)
    (c : Container) (t : Ty) (tag : String) : (Except String Value) × Container :=
  let keyStr := TypeKey.str { typ := t, tag := tag }
  if c.resolving.contains keyStr then
    (.error ("circular dependency detected for type " ++ keyStr), c)
  else
    let cg : Container := { c with resolving := keyStr :: c.resolving }
    let fin : (Except String Value) × Container → (Except String Value) × Container :=
      fun r => (r.1, { r.2 with resolving := r.2.resolving.filter (fun x => x != keyStr) })
    match lookupReg cg.registrations { typ := t, tag := tag } with
    | none => fin (.error ("no registration found for type " ++ keyStr), cg)
    | some items =>
      match items with
      | [] => fin (.error ("no registration found for type " ++ keyStr), cg)
      | reg :: rest =>
        if !rest.isEmpty && t.kind != GoKind.kSlice then
          fin (.error ("multiple registrations for " ++ keyStr ++
            ": specify a tag or resolve a slice ([]" ++ t.str ++ ")"), cg)
        else
          match reg.scope with
          | Scope.Singleton =>
            match lookupCache cg.singletons keyStr with
            | some inst => fin (.ok inst, cg)
            | none =>
              match createInstance recur cg reg with
              | (.error e, c1) => fin (.error e, c1)
              | (.ok v, c1) =>
                fin (.ok v, { c1 with singletons := (keyStr, v) :: c1.singletons })
          | Scope.Transient => fin (createInstance recur cg reg)

/-- Embeds `Container.resolveType`, with fuel bounding recursion depth. -/
def resolveTypeF : Nat → Container → Ty → String → (Except String Value) × Container
  | 0 => fun c _ _ => (.error "resolution fuel exhausted", c)
  | Nat.succ fuel => resolveStep (resolveTypeF fuel)

/-- The loop of `Container.resolveSlice` over the gathered keys, resolving
each with its own tag and checking assignability of each resolved value. -/
def resolveSliceAux (resolve : Container → Ty → String → (Except String Value) × Container)
    (elemType : Ty) :
    List TypeKey → Container → (Except String (List Value)) × Container
  | [], c => (.ok [], c)
  | k :: rest, c =>
    match resolve c elemType k.tag with
    | (.error e, c1) =>
      (.error ("failed to resolve slice element for " ++ k.str ++ ": " ++ e), c1)
    | (.ok v, c1) =>
      if assignableTo v.dynTy elemType = false then
        (.error ("resolved element type " ++ v.dynTy.str ++ " is not assignable to " ++
          elemType.str), c1)
      else
        match resolveSliceAux resolve elemType rest c1 with
        | (.error e, c2) => (.error e, c2)
        | (.ok vs, c2) => (.ok (v :: vs), c2)

/-- Embeds `Container.resolveSlice`: gather all keys whose type equals the element
type (across all tags), resolve each via `resolveType`, and build the
slice. -/
def resolveSliceF (resolve : Container → Ty → String → (Except String Value) × Container)
    (c : Container) (elemType : Ty) : (Except String Value) × Container :=
  let entries := (c.registrations.filter (fun kv => kv.1.typ == elemType)).map (fun kv => kv.1)
  match resolveSliceAux resolve elemType entries c with
  | (.error e, c1) => (.error e, c1)
  | (.ok vs, c1) => (.ok (Value.sliceV elemType vs), c1)

/-- Embeds `Resolve[T]`: closed check, slice dispatch, untagged `resolveType`. -/
def ResolveF (fuel : Nat) (c : Container) (t : Ty) : (Except String Value) × Container :=
  if c.closed then (.error "container is closed", c)
  else
    match t with
    | Ty.sliceT elem => resolveSliceF (resolveTypeF fuel) c elem
    | _ => resolveTypeF fuel c t ""

/-- Embeds `ResolveWithTag[T]`. -/
def ResolveWithTagF (fuel : Nat) (c : Container) (t : Ty) (tag : String) :
    (Except String Value) × Container :=
  if c.closed then (.error "container is closed", c)
  else resolveTypeF fuel c t tag

/-- Embeds `Container.Close()`: set the closed flag and purge all maps. -/
def CloseF (c : Container) : Container :=
  { c with closed := true, registrations := [], singletons := [], resolving := [] }

/-- Embeds `Container.Clear()`. -/
def ClearF (c : Container) : Container :=
  { c with registrations := [], singletons := [], resolving := [] }

/-- Embeds `IsRegistered[T]`. -/
def IsRegisteredF (c : Container) (t : Ty) (tag : String) : Bool :=
  match lookupReg c.registrations { typ := t, tag := tag } with
  | none => false
  | some items => !items.isEmpty

/-- Repeated untagged resolution: `n` successive `Resolve[T]` calls,
collecting each outcome. -/
def resolveRepeat (fuel : Nat) (t : Ty) : Nat → Container → List (Except String Value) × Container
  | 0, c => ([], c)
  | Nat.succ n, c =>
    let r := ResolveF fuel c t
    let rest := resolveRepeat fuel t n r.2
    (r.1 :: rest.1, rest.2)

/-- A constructor with no parameters that allocates a fresh instance of `t`
on every call, mirroring a Go constructor `func() *T { return &T{} }`. -/
def mkAlloc (t : Ty) : Ctor :=
  { params := [], retTy := t, errOut := none,
    body := fun _ n => (Value.obj t n, none, n + 1) }

/-! Concrete registration scenarios used by the claim theorems. -/

/-- A pointer type with a Singleton allocating constructor. -/
def tyW : Ty := Ty.named "W" GoKind.kPtr []

/-- Container with `tyW` registered as Singleton. -/
def cW : Container := (RegisterF Container.new tyW (mkAlloc tyW) Scope.Singleton "").2

/-- Mutually dependent types: the constructor of `A` needs `B`. -/
def tyA : Ty := Ty.named "A" GoKind.kPtr []

def tyB : Ty := Ty.named "B" GoKind.kPtr []

/-- An independent type registered alongside the `A`/`B` cycle. -/
def tyK : Ty := Ty.named "K" GoKind.kPtr []

/-- Constructor for `A` taking a `B` parameter (`func(b *B) *A`). -/
def ctorA : Ctor :=
  { params := [tyB], retTy := tyA, errOut := none,
    body := fun _ n => (Value.obj tyA n, none, n + 1) }

/-- Constructor for `B` taking an `A` parameter (`func(a *A) *B`). -/
def ctorB : Ctor :=
  { params := [tyA], retTy := tyB, errOut := none,
    body := fun _ n => (Value.obj tyB n, none, n + 1) }

/-- Container with the `A`→`B`→`A` cycle registered, plus cycle-free `K`. -/
def cAB : Container :=
  (RegisterF (RegisterF (RegisterF Container.new tyA ctorA Scope.Singleton "").2
    tyB ctorB Scope.Singleton "").2 tyK (mkAlloc tyK) Scope.Singleton "").2

/-- An interface type registered under two tags. -/
def tyT : Ty := Ty.named "T" GoKind.kInterface []

/-- Concrete implementation registered under tag `x`. -/
def tyCX : Ty := Ty.named "CX" GoKind.kPtr ["T"]

/-- Concrete implementation registered under tag `y`. -/
def tyCY : Ty := Ty.named "CY" GoKind.kPtr ["T"]

/-- Container with `tyT` registered under tags `x` and `y` only. -/
def cXY : Container :=
  (RegisterF (RegisterF Container.new tyT (mkAlloc tyCX) Scope.Singleton "x").2
    tyT (mkAlloc tyCY) Scope.Singleton "y").2

/-- A type whose constructor returns `(T, error)` and fails on its first
invocation only (the error result is non-nil exactly when the allocation
counter is 0). -/
def tyE : Ty := Ty.named "E" GoKind.kPtr []

/-- The Go `error` interface type. -/
def tyErr : Ty := Ty.named "error" GoKind.kInterface []

/-- Constructor for `tyE` returning `(T, error)`, erroring on first call. -/
def ctorE : Ctor :=
  { params := [], retTy := tyE, errOut := some tyErr,
    body := fun _ n => (Value.obj tyE n, (if n == 0 then some "boom" else none), n + 1) }

/-- Container with the failing-then-succeeding Singleton constructor. -/
def cE : Container := (RegisterF Container.new tyE ctorE Scope.Singleton "").2

/-- Interface type with two registrations under the same tag `a`. -/
def tyI7 : Ty := Ty.named "T7" GoKind.kInterface []

/-- First implementation of `tyI7`. -/
def tyCA7 : Ty := Ty.named "CA7" GoKind.kPtr ["T7"]

/-- Second implementation of `tyI7`. -/
def tyCB7 : Ty := Ty.named "CB7" GoKind.kPtr ["T7"]

/-- Container with two registrations of `tyI7` under the identical key
`(T7, "a")`. -/
def cDup : Container :=
  (RegisterF (RegisterF Container.new tyI7 (mkAlloc tyCA7) Scope.Singleton "a").2
    tyI7 (mkAlloc tyCB7) Scope.Singleton "a").2

/-- Interface type with three tagged implementations. -/
def tyI3 : Ty := Ty.named "T3" GoKind.kInterface []

/-- Implementation under tag `a`. -/
def tyCA3 : Ty := Ty.named "CA3" GoKind.kPtr ["T3"]

/-- Implementation under tag `b`. -/
def tyCB3 : Ty := Ty.named "CB3" GoKind.kPtr ["T3"]

/-- Implementation under tag `c`. -/
def tyCC3 : Ty := Ty.named "CC3" GoKind.kPtr ["T3"]

/-- Container with three Singleton implementations of `tyI3` under tags
`a`, `b`, `c`. -/
def c3 : Container :=
  (RegisterF (RegisterF (RegisterF Container.new tyI3 (mkAlloc tyCA3) Scope.Singleton "a").2
    tyI3 (mkAlloc tyCB3) Scope.Singleton "b").2 tyI3 (mkAlloc tyCC3) Scope.Singleton "c").2

/-- An interface type for the `Provide` scenario. -/
def tyI8 : Ty := Ty.named "I8" GoKind.kInterface []

/-- The concrete type of the provided instance. -/
def tyImpl8 : Ty := Ty.named "Impl8" GoKind.kPtr ["I8"]

/-- The already-constructed instance handed to `Provide`. -/
def implV : Value := Value.obj tyImpl8 7

/-- Container after `Provide(I8, implV)`. -/
def c8 : Container := (ProvideF Container.new tyI8 implV "").2

/-- A pointer type registered Transient with an allocating constructor. -/
def tyT9 : Ty := Ty.named "T9" GoKind.kPtr []

/-- Container with `tyT9` registered as Transient. -/
def cT9 : Container := (RegisterF Container.new tyT9 (mkAlloc tyT9) Scope.Transient "").2

/-- A dependency type registered only under the non-empty tag `d`. -/
def tyD10 : Ty := Ty.named "D10" GoKind.kPtr []

/-- A type whose constructor takes a `tyD10` parameter. -/
def tyU10 : Ty := Ty.named "U10" GoKind.kPtr []

/-- Constructor for `tyU10` needing `tyD10` (`func(d *D10) *U10`). -/
def ctorU10 : Ctor :=
  { params := [tyD10], retTy := tyU10, errOut := none,
    body := fun _ n => (Value.obj tyU10 n, none, n + 1) }

/-- Container with `tyD10` registered under tag `d` only and `tyU10`
registered untagged. -/
def cU10 : Container :=
  (RegisterF (RegisterF Container.new tyD10 (mkAlloc tyD10) Scope.Singleton "d").2
    tyU10 ctorU10 Scope.Singleton "").2

/-- The pointer type used for the `Register`-time primitive validation
scenario. -/
def tyX6 : Ty := Ty.named "X6" GoKind.kPtr []

/-- The Go `string` type. -/
def tyStr : Ty := Ty.named "string" GoKind.kString []

/-- Constructor for `tyX6` taking an (unregistered) `string` parameter. -/
def ctorX6 : Ctor :=
  { params := [tyStr], retTy := tyX6, errOut := none,
    body := fun _ n => (Value.obj tyX6 n, none, n + 1) }

/-- Resolution never changes the registration map, the closed flag, or
(net of guaranteed guard-set cleanup) the resolving set. -/
def sameCore (c c2 : Container) : Prop :=
  c2.registrations = c.registrations ∧ c2.closed = c.closed ∧ c2.resolving = c.resolving

theorem sameCore_refl (c : Container) : sameCore c c := ⟨rfl, rfl, rfl⟩

theorem sameCore_trans {a b c : Container} (h1 : sameCore a b) (h2 : sameCore b c) :
    sameCore a c :=
  ⟨h2.1.trans h1.1, h2.2.1.trans h1.2.1, h2.2.2.trans h1.2.2⟩

theorem filter_ne_of_not_contains (l : List String) (s : String)
    (h : l.contains s = false) : l.filter (fun x => x != s) = l := by
  have hs : s ∉ l := by simpa using h
  rw [List.filter_eq_self]
  intro a ha
  exact bne_iff_ne.mpr (fun he => hs (he ▸ ha))

theorem filter_push (l : List String) (s : String) (h : l.contains s = false) :
    (s :: l).filter (fun x => x != s) = l := by
  rw [List.filter_cons]
  simp [filter_ne_of_not_contains l s h]

theorem resolveArgsAux_core
    (resolve : Container → Ty → String → (Except String Value) × Container)
    (H : ∀ c t tag, sameCore c (resolve c t tag).2) :
    ∀ (ps : List Ty) (i : Nat) (c : Container),
      sameCore c (resolveArgsAux resolve ps i c).2 := by
  intro ps
  induction ps with
  | nil => intro i c; exact sameCore_refl c
  | cons p rest ih =>
    intro i c
    rcases hr : resolve c p "" with ⟨r1, c1⟩
    have hc1 : sameCore c c1 := by have h0 := H c p ""; rwa [hr] at h0
    cases r1 with
    | error e => simp only [resolveArgsAux, hr]; exact hc1
    | ok v =>
      rcases hrest : resolveArgsAux resolve rest (i + 1) c1 with ⟨r2, c2⟩
      have hc2 : sameCore c1 c2 := by have h0 := ih (i + 1) c1; rwa [hrest] at h0
      cases r2 with
      | error e => simp only [resolveArgsAux, hr, hrest]; exact sameCore_trans hc1 hc2
      | ok vs => simp only [resolveArgsAux, hr, hrest]; exact sameCore_trans hc1 hc2

theorem createInstance_core
    (resolve : Container → Ty → String → (Except String Value) × Container)
    (H : ∀ c t tag, sameCore c (resolve c t tag).2)
    (c : Container) (reg : Registration) :
    sameCore c (createInstance resolve c reg).2 := by
  unfold createInstance
  cases hdf : reg.directFactory with
  | some f => exact ⟨rfl, rfl, rfl⟩
  | none =>
    cases hct : reg.ctor with
    | none => exact sameCore_refl c
    | some ct =>
      rcases hargs : resolveArgsAux resolve ct.params 0 c with ⟨r1, c1⟩
      have hc1 : sameCore c c1 := by
        have h0 := resolveArgsAux_core resolve H ct.params 0 c
        rwa [hargs] at h0
      cases r1 with
      | error e => simp only [hargs]; exact hc1
      | ok args =>
        cases herr : ct.errOut with
        | none => simp only [hargs, herr]; exact ⟨hc1.1, hc1.2.1, hc1.2.2⟩
        | some et =>
          cases hb : (ct.body args c1.fresh).2.1 with
          | none => simp only [hargs, herr, hb]; exact ⟨hc1.1, hc1.2.1, hc1.2.2⟩
          | some e => simp only [hargs, herr, hb]; exact ⟨hc1.1, hc1.2.1, hc1.2.2⟩

theorem resolveTypeF_core :
    ∀ (fuel : Nat) (c : Container) (t : Ty) (tag : String),
      sameCore c (resolveTypeF fuel c t tag).2 := by
  intro fuel
  induction fuel with
  | zero => intro c t tag; exact sameCore_refl c
  | succ fuel ih =>
    intro c t tag
    show sameCore c (resolveStep (resolveTypeF fuel) c t tag).2
    unfold resolveStep
    by_cases hcont : c.resolving.contains (TypeKey.str { typ := t, tag := tag }) = true
    · simp only [hcont, if_true]
      exact sameCore_refl c
    · rw [Bool.not_eq_true] at hcont
      simp only [hcont, Bool.false_eq_true, if_false]
      have hfp := filter_push c.resolving _ hcont
      cases hlk : lookupReg c.registrations { typ := t, tag := tag } with
      | none => exact ⟨rfl, rfl, hfp⟩
      | some items =>
        cases items with
        | nil => simp only; exact ⟨rfl, rfl, hfp⟩
        | cons reg rest =>
          by_cases hmany : (!rest.isEmpty && t.kind != GoKind.kSlice) = true
          · simp only [hmany, if_true]
            exact ⟨rfl, rfl, hfp⟩
          · rw [Bool.not_eq_true] at hmany
            simp only [hmany, Bool.false_eq_true, if_false]
            cases hsc : reg.scope with
            | Singleton =>
              cases hcache :
                  lookupCache c.singletons (TypeKey.str { typ := t, tag := tag }) with
              | some inst => simp only [hcache]; exact ⟨rfl, rfl, hfp⟩
              | none =>
                simp only [hcache]
                rcases hci : createInstance (resolveTypeF fuel)
                    { c with resolving :=
                        TypeKey.str { typ := t, tag := tag } :: c.resolving } reg
                  with ⟨r1, c1⟩
                have hc1 : sameCore
                    { c with resolving :=
                        TypeKey.str { typ := t, tag := tag } :: c.resolving } c1 := by
                  have h0 := createInstance_core (resolveTypeF fuel) ih
                    { c with resolving :=
                        TypeKey.str { typ := t, tag := tag } :: c.resolving } reg
                  rwa [hci] at h0
                cases r1 with
                | error e =>
                  simp only [hci]
                  exact ⟨hc1.1, hc1.2.1, by rw [hc1.2.2]; exact hfp⟩
                | ok v =>
                  simp only [hci]
                  exact ⟨hc1.1, hc1.2.1, by rw [hc1.2.2]; exact hfp⟩
            | Transient =>
              rcases hci : createInstance (resolveTypeF fuel)
                  { c with resolving :=
                      TypeKey.str { typ := t, tag := tag } :: c.resolving } reg
                with ⟨r1, c1⟩
              have hc1 : sameCore
                  { c with resolving :=
                      TypeKey.str { typ := t, tag := tag } :: c.resolving } c1 := by
                have h0 := createInstance_core (resolveTypeF fuel) ih
                  { c with resolving :=
                      TypeKey.str { typ := t, tag := tag } :: c.resolving } reg
                rwa [hci] at h0
              simp only [hci]
              exact ⟨hc1.1, hc1.2.1, by rw [hc1.2.2]; exact hfp⟩

/-- C5: after `Close()` every subsequent `Register`, `RegisterFactory`,
`Resolve` or `ResolveWithTag` call on the container fails with the
closed-container error, for every type, constructor, factory, scope, tag and
fuel — including types registered or resolved before closing, since the
statement quantifies over all containers — and leaves the closed container
unchanged. -/
theorem closed_container_rejects_all_operations :
    ∀ (c : Container) (t : Ty) (ct : Ctor) (factory : Nat → Value × Nat)
      (scope : Scope) (tag : String) (fuel : Nat),
      (CloseF c).closed = true ∧
      RegisterF (CloseF c) t ct scope tag = (.error "container is closed", CloseF c) ∧
      RegisterFactoryF (CloseF c) t factory scope tag =
        (.error "container is closed", CloseF c) ∧
      ResolveF fuel (CloseF c) t = (.error "container is closed", CloseF c) ∧
      ResolveWithTagF fuel (CloseF c) t tag = (.error "container is closed", CloseF c) := by
  intro c t ct factory scope tag fuel
  exact ⟨rfl, rfl, rfl, rfl, rfl⟩

/-- C10: reflective construction resolves every constructor parameter with
the empty tag only: with the dependency type `D10` registered solely under
tag `d`, resolving `U10` (whose constructor needs a `D10`) fails with a
not-found error for the untagged `D10` key, even though the tagged
registration of `D10` exists. -/
theorem params_resolved_with_empty_tag_only :
    (ResolveF 5 cU10 tyU10).1 =
      .error "failed to resolve parameter 0: no registration found for type D10" ∧
    IsRegisteredF cU10 tyD10 "d" = true ∧
    IsRegisteredF cU10 tyD10 "" = false := by
  exact ⟨rfl, rfl, rfl⟩

/-- C4: a constructor returning a non-nil second (error) result makes
`Resolve` of its key return that error, and nothing is cached for the key
(the cache is unchanged); a later `Resolve` of the same key invokes the
constructor again (the allocation counter, which the constructor body
increments on every invocation, grows from 1 to 2) and, now succeeding,
returns and caches the freshly-constructed instance rather than a stale
one. -/
theorem constructor_error_propagates_nothing_cached :
    (ResolveF 3 cE tyE).1 = .error "boom" ∧
    ((ResolveF 3 cE tyE).2).singletons = cE.singletons ∧
    cE.singletons = [] ∧
    ((ResolveF 3 cE tyE).2).fresh = 1 ∧
    (ResolveF 3 (ResolveF 3 cE tyE).2 tyE).1 = .ok (Value.obj tyE 1) ∧
    ((ResolveF 3 (ResolveF 3 cE tyE).2 tyE).2).fresh = 2 ∧
    lookupCache ((ResolveF 3 (ResolveF 3 cE tyE).2 tyE).2).singletons
      (TypeKey.str { typ := tyE, tag := "" }) = some (Value.obj tyE 1) := by
  exact ⟨rfl, rfl, rfl, rfl, rfl, rfl, rfl⟩

/-- C3 counterexample: with `T` registered under tags `x` and `y` only,
resolving `T` untagged fails with the not-found error — the registration
map is keyed by (type, tag), so the untagged key `(T, "")` is simply absent
— and not with the ambiguity error the claim asserts (which the code emits
only for multiple registrations under one identical key). -/
theorem untagged_resolve_not_ambiguity_counterexample :
    (ResolveF 5 cXY tyT).1 = .error "no registration found for type T" ∧
    "no registration found for type T" ≠
      "multiple registrations for T: specify a tag or resolve a slice ([]T)" := by
  exact ⟨rfl, by decide⟩

/-- C3 amended: with `T` registered under tags `x` and `y`, resolving `T`
untagged fails with a not-found error (the tagged registrations live under
distinct keys), while `ResolveWithTag(T,"x")` and `ResolveWithTag(T,"y")`
each succeed and return the instance produced by the correspondingly tagged
registration (visible in the returned dynamic types `CX` and `CY`). -/
theorem untagged_resolve_not_found_tagged_succeed :
    (ResolveF 5 cXY tyT).1 = .error "no registration found for type T" ∧
    (ResolveWithTagF 5 cXY tyT "x").1 = .ok (Value.obj tyCX 0) ∧
    (ResolveWithTagF 5 cXY tyT "y").1 = .ok (Value.obj tyCY 0) := by
  exact ⟨rfl, rfl, rfl⟩

/-- C7 counterexample: with two registrations of `T7` under the identical
key `(T7, "a")`, resolving `[]T7` does not return one instance per
registration — it fails with the ambiguity error raised by the per-key
single-value resolution that `resolveSlice` delegates to. -/
theorem slice_resolution_duplicate_key_counterexample :
    (ResolveF 5 cDup (Ty.sliceT tyI7)).1 =
      .error ("failed to resolve slice element for T7:a: " ++
        "multiple registrations for T7:a: specify a tag or resolve a slice ([]T7)") ∧
    ∀ v : Value, (ResolveF 5 cDup (Ty.sliceT tyI7)).1 ≠ .ok v := by
  have h1 : (ResolveF 5 cDup (Ty.sliceT tyI7)).1 =
      .error ("failed to resolve slice element for T7:a: " ++
        "multiple registrations for T7:a: specify a tag or resolve a slice ([]T7)") := rfl
  refine ⟨h1, fun v h => ?_⟩
  rw [h1] at h
  exact Except.noConfusion h

/-- C7 amended: collection resolution of `[]T3` returns one instance per
registered `(type, tag)` key whose type equals `T3` (here three, one per
tag, each key holding a single registration), each returned value
assignable to `T3`; each element goes through the per-key Singleton policy,
so re-invoking the collection resolve returns the same singleton instances
with no duplicate construction (the allocation counter stays at 3). -/
theorem slice_resolution_per_key_singletons :
    (ResolveF 9 c3 (Ty.sliceT tyI3)).1 =
      .ok (Value.sliceV tyI3 [Value.obj tyCA3 0, Value.obj tyCB3 1, Value.obj tyCC3 2]) ∧
    ((ResolveF 9 c3 (Ty.sliceT tyI3)).2).fresh = 3 ∧
    (ResolveF 9 (ResolveF 9 c3 (Ty.sliceT tyI3)).2 (Ty.sliceT tyI3)).1 =
      .ok (Value.sliceV tyI3 [Value.obj tyCA3 0, Value.obj tyCB3 1, Value.obj tyCC3 2]) ∧
    ((ResolveF 9 (ResolveF 9 c3 (Ty.sliceT tyI3)).2 (Ty.sliceT tyI3)).2).fresh = 3 ∧
    ∀ v ∈ [Value.obj tyCA3 0, Value.obj tyCB3 1, Value.obj tyCC3 2],
      assignableTo v.dynTy tyI3 = true := by
  refine ⟨rfl, rfl, rfl, rfl, ?_⟩
  intro v hv
  rcases List.mem_cons.mp hv with rfl | hv
  · rfl
  rcases List.mem_cons.mp hv with rfl | hv
  · rfl
  rcases List.mem_cons.mp hv with rfl | hv
  · rfl
  exact absurd hv (List.not_mem_nil v)

/-- C8: `Provide` with a concrete (non-interface) type parameter fails with
the validation error and registers nothing (the container is returned
unchanged), for every container, instance and tag; `Provide` with an
interface type succeeds, records a Singleton registration, and a subsequent
`Resolve` of the interface returns exactly the provided instance, which is
then in the singleton cache. -/
theorem provide_interface_only_and_returns_instance :
    (∀ (c : Container) (impl : Value) (tag : String) (nm : String) (kd : GoKind)
       (im : List String), kd ≠ GoKind.kInterface →
       ProvideF c (Ty.named nm kd im) impl tag =
         (.error "Provide is for interface types only", c)) ∧
    (ProvideF Container.new tyI8 implV "").1 = .ok () ∧
    (lookupReg c8.registrations { typ := tyI8, tag := "" }).map
      (fun items => items.map Registration.scope) = some [Scope.Singleton] ∧
    (ResolveF 3 c8 tyI8).1 = .ok implV ∧
    lookupCache ((ResolveF 3 c8 tyI8).2).singletons
      (TypeKey.str { typ := tyI8, tag := "" }) = some implV := by
  refine ⟨?_, rfl, rfl, rfl, rfl⟩
  intro c impl tag nm kd im hk
  unfold ProvideF
  simp [Ty.kind, hk]

/-- Witness for C8: `Provide` at the concrete pointer type `P` fails with
the validation error and leaves the fresh container unchanged. -/
theorem provide_interface_only_witness :
    ProvideF Container.new (Ty.named "P" GoKind.kPtr []) implV "" =
      (.error "Provide is for interface types only", Container.new) :=
  provide_interface_only_and_returns_instance.1 Container.new implV "" "P" GoKind.kPtr []
    (by decide)

/-- C2: the guard-set entry for every key is removed when resolution of the
key ends, on success and on every failure path (first conjunct, for all
containers, types, tags and fuel); registering `A` requiring `B` and `B`
requiring `A` and resolving `A` fails with a circular-dependency error
naming the key `A`, after which the guard set is empty, nothing was cached,
and a subsequent well-founded resolution (of `K`) succeeds. -/
theorem circular_dependency_detected_and_guard_cleaned :
    (∀ (fuel : Nat) (c : Container) (t : Ty) (tag : String),
       ((resolveTypeF fuel c t tag).2).resolving = c.resolving) ∧
    (ResolveF 9 cAB tyA).1 =
      .error ("failed to resolve parameter 0: failed to resolve parameter 0: " ++
        "circular dependency detected for type A") ∧
    ((ResolveF 9 cAB tyA).2).resolving = [] ∧
    ((ResolveF 9 cAB tyA).2).singletons = [] ∧
    (ResolveF 5 (ResolveF 9 cAB tyA).2 tyK).1 = .ok (Value.obj tyK 0) := by
  refine ⟨?_, rfl, rfl, rfl, rfl⟩
  intro fuel c t tag
  exact (resolveTypeF_core fuel c t tag).2.2

theorem checkParams_some_of_bad (regs : List (TypeKey × List Registration)) :
    ∀ (ps : List Ty) (i : Nat) (p : Ty), p ∈ ps →
      isPrimitiveKind p.kind = true →
      lookupReg regs { typ := p, tag := "" } = none →
      ∃ j, checkParams regs ps i = some j := by
  intro ps
  induction ps with
  | nil => intro i p hp; cases hp
  | cons q rest ih =>
    intro i p hp hprim hlk
    by_cases hq : (isPrimitiveKind q.kind &&
        (lookupReg regs { typ := q, tag := "" }).isNone) = true
    · exact ⟨i, by simp [checkParams, hq]⟩
    · rw [Bool.not_eq_true] at hq
      rcases List.mem_cons.mp hp with rfl | hp2
      · rw [hprim] at hq
        rw [hlk] at hq
        simp at hq
      · obtain ⟨j, hj⟩ := ih (i + 1) p hp2 hprim hlk
        exact ⟨j, by simp [checkParams, hq, hj]⟩

/-- C6: `Register` rejects, at registration time, a constructor with a
parameter of primitive kind for which no untagged registration of that
exact type exists: the call returns the validation error naming the
parameter and leaves the container unchanged (no registration is added),
so the failure does not wait until `Resolve` time. -/
theorem primitive_param_validation_at_register
    (c : Container) (t : Ty) (ct : Ctor) (scope : Scope) (tag : String) (p : Ty)
    (hcl : c.closed = false)
    (hret : assignableTo ct.retTy t = true)
    (herr : ∀ et, ct.errOut = some et → isErrorType et = true)
    (hp : p ∈ ct.params)
    (hprim : isPrimitiveKind p.kind = true)
    (hnone : lookupReg c.registrations { typ := p, tag := "" } = none) :
    ∃ i : Nat, RegisterF c t ct scope tag =
      (.error ("constructor parameter " ++ toString i ++ " is primitive and not registered"),
       c) := by
  obtain ⟨j, hj⟩ := checkParams_some_of_bad c.registrations ct.params 0 p hp hprim hnone
  refine ⟨j, ?_⟩
  unfold RegisterF
  rw [hcl, hret]
  have herr2 : (match ct.errOut with
      | some et => !(isErrorType et)
      | none => false) = false := by
    cases he : ct.errOut with
    | none => rfl
    | some et => simp [herr et he]
  rw [herr2]
  simp [hj]

/-- Witness for C6: registering a constructor taking an unregistered
`string` parameter on a fresh container fails with the validation error. -/
theorem primitive_param_validation_witness :
    ∃ i : Nat, RegisterF Container.new tyX6 ctorX6 Scope.Singleton "" =
      (.error ("constructor parameter " ++ toString i ++ " is primitive and not registered"),
       Container.new) :=
  primitive_param_validation_at_register Container.new tyX6 ctorX6 Scope.Singleton "" tyStr
    rfl rfl (fun et h => absurd h (by simp [ctorX6])) (by simp [ctorX6]) rfl rfl

theorem transient_step (k : Nat) :
    ResolveF 3 { cT9 with fresh := k } tyT9 =
      (.ok (Value.obj tyT9 k), { cT9 with fresh := k + 1 }) := rfl

theorem resolveRepeat_transient (n : Nat) :
    ∀ k : Nat, resolveRepeat 3 tyT9 n { cT9 with fresh := k } =
      ((List.range' k n).map (fun i => Except.ok (Value.obj tyT9 i)),
       { cT9 with fresh := k + n }) := by
  induction n with
  | zero => intro k; rfl
  | succ n ih =>
    intro k
    show (let r := ResolveF 3 { cT9 with fresh := k } tyT9
          let rest := resolveRepeat 3 tyT9 n r.2
          (r.1 :: rest.1, rest.2)) = _
    rw [transient_step k]
    simp only []
    rw [ih (k + 1), List.range'_succ, List.map_cons]
    have hn : k + 1 + n = k + (n + 1) := by omega
    rw [hn]

/-- C9: for the Transient registration of `T9` with an allocating
constructor, `n` untagged `Resolve` calls perform `n` constructions (the
allocation counter, incremented once per constructor invocation, ends at
`n`), return `n` pairwise-distinct instances (ids `0..n-1`), and never
touch the singleton cache (it stays empty). -/
theorem transient_resolutions_fresh_instances (n : Nat) :
    resolveRepeat 3 tyT9 n cT9 =
      ((List.range n).map (fun i => Except.ok (Value.obj tyT9 i)),
       { cT9 with fresh := n }) ∧
    ((resolveRepeat 3 tyT9 n cT9).1).Nodup ∧
    ((resolveRepeat 3 tyT9 n cT9).2).singletons = [] ∧
    ((resolveRepeat 3 tyT9 n cT9).2).fresh = n := by
  have h0 : resolveRepeat 3 tyT9 n cT9 =
      ((List.range n).map (fun i => Except.ok (Value.obj tyT9 i)),
       { cT9 with fresh := n }) := by
    have h1 := resolveRepeat_transient n 0
    rw [List.range_eq_range']
    have hc : ({ cT9 with fresh := 0 } : Container) = cT9 := rfl
    rw [hc] at h1
    rw [h1]
    simp
  refine ⟨h0, ?_, ?_, ?_⟩
  · rw [h0]
    refine List.Nodup.map ?_ (List.nodup_range n)
    intro a b hab
    have := Except.ok.inj hab
    exact Value.obj.inj this |>.2
  · rw [h0]
    rfl
  · rw [h0]

theorem mk_eta (c : Container) :
    Container.mk c.registrations c.singletons c.resolving c.closed c.fresh = c := rfl

theorem ResolveF_named (fuel : Nat) (c : Container) (nm : String) (kd : GoKind)
    (im : List String) :
    ResolveF fuel c (Ty.named nm kd im) =
      if c.closed then (.error "container is closed", c)
      else resolveTypeF fuel c (Ty.named nm kd im) "" := rfl

theorem resolveType_cache_hit (fuel : Nat) (c : Container) (t : Ty) (tag : String)
    (reg : Registration) (v : Value)
    (hcont : c.resolving.contains (TypeKey.str { typ := t, tag := tag }) = false)
    (hlk : lookupReg c.registrations { typ := t, tag := tag } = some [reg])
    (hsc : reg.scope = Scope.Singleton)
    (hcache : lookupCache c.singletons (TypeKey.str { typ := t, tag := tag }) = some v) :
    resolveTypeF (fuel + 1) c t tag = (.ok v, c) := by
  show resolveStep (resolveTypeF fuel) c t tag = (.ok v, c)
  rw [resolveStep]
  simp only [hcont, Bool.false_eq_true, if_false, hlk, hsc, hcache,
    List.isEmpty_nil, Bool.not_true, Bool.false_and, filter_push c.resolving _ hcont, mk_eta]

theorem singleton_resolve_caches_and_reuses
    (fuel f2 : Nat) (c c1 : Container) (nm : String) (kd : GoKind) (im : List String)
    (reg : Registration) (v : Value)
    (hcl : c.closed = false)
    (hlk : lookupReg c.registrations { typ := Ty.named nm kd im, tag := "" } = some [reg])
    (hsc : reg.scope = Scope.Singleton)
    (hres : ResolveF fuel c (Ty.named nm kd im) = (.ok v, c1)) :
    lookupCache c1.singletons (TypeKey.str { typ := Ty.named nm kd im, tag := "" }) = some v ∧
    c1.closed = false ∧
    ResolveF (f2 + 1) c1 (Ty.named nm kd im) = (.ok v, c1) := by
  rw [ResolveF_named, hcl] at hres
  simp only [Bool.false_eq_true, if_false] at hres
  cases fuel with
  | zero =>
    exact absurd hres (by simp [resolveTypeF])
  | succ fuel =>
    have hres2 : resolveStep (resolveTypeF fuel) c (Ty.named nm kd im) "" = (.ok v, c1) := hres
    by_cases hcont : c.resolving.contains
        (TypeKey.str { typ := Ty.named nm kd im, tag := "" }) = true
    · rw [resolveStep] at hres2
      simp only [hcont, if_true] at hres2
      exact absurd hres2 (by simp)
    · rw [Bool.not_eq_true] at hcont
      rw [resolveStep] at hres2
      simp only [hcont, Bool.false_eq_true, if_false, hlk, hsc,
        List.isEmpty_nil, Bool.not_true, Bool.false_and] at hres2
      cases hcache : lookupCache c.singletons
          (TypeKey.str { typ := Ty.named nm kd im, tag := "" }) with
      | some inst =>
        simp only [hcache, filter_push c.resolving _ hcont, mk_eta,
          Prod.mk.injEq, Except.ok.injEq] at hres2
        obtain ⟨hv, hc⟩ := hres2
        subst hc
        refine ⟨by rw [hv] at hcache; exact hcache, hcl, ?_⟩
        rw [ResolveF_named, hcl]
        simp only [Bool.false_eq_true, if_false]
        rw [hv] at hcache
        exact resolveType_cache_hit f2 c _ "" reg v hcont hlk hsc hcache
      | none =>
        simp only [hcache] at hres2
        rcases hci : createInstance (resolveTypeF fuel)
            { c with resolving :=
                TypeKey.str { typ := Ty.named nm kd im, tag := "" } :: c.resolving } reg
          with ⟨r1, cX⟩
        rw [hci] at hres2
        have hcore : sameCore
            { c with resolving :=
                TypeKey.str { typ := Ty.named nm kd im, tag := "" } :: c.resolving } cX := by
          have h0 := createInstance_core (resolveTypeF fuel)
            (fun c2 t2 tag2 => resolveTypeF_core fuel c2 t2 tag2)
            { c with resolving :=
                TypeKey.str { typ := Ty.named nm kd im, tag := "" } :: c.resolving } reg
          rwa [hci] at h0
        have hXregs : cX.registrations = c.registrations := hcore.1
        have hXcl : cX.closed = false := hcore.2.1.trans hcl
        have hXresv : cX.resolving =
            TypeKey.str { typ := Ty.named nm kd im, tag := "" } :: c.resolving := hcore.2.2
        cases r1 with
        | error e => exact absurd hres2 (by simp)
        | ok w =>
          simp only [hXresv, filter_push c.resolving _ hcont,
            Prod.mk.injEq, Except.ok.injEq] at hres2
          obtain ⟨hv, hc⟩ := hres2
          have h1sing : c1.singletons =
              (TypeKey.str { typ := Ty.named nm kd im, tag := "" }, w) :: cX.singletons := by
            rw [← hc]
          have h1regs : c1.registrations = cX.registrations := by rw [← hc]
          have h1cl : c1.closed = false := by rw [← hc]; exact hXcl
          have h1resv : c1.resolving = c.resolving := by rw [← hc]
          have hcache1 : lookupCache c1.singletons
              (TypeKey.str { typ := Ty.named nm kd im, tag := "" }) = some v := by
            rw [h1sing, hv]
            simp [lookupCache]
          refine ⟨hcache1, h1cl, ?_⟩
          rw [ResolveF_named, h1cl]
          simp only [Bool.false_eq_true, if_false]
          refine resolveType_cache_hit f2 c1 _ "" reg v ?_ ?_ hsc hcache1
          · rw [h1resv]; exact hcont
          · rw [h1regs, hXregs]; exact hlk

theorem singleton_resolve_caches_and_reuses_witness :
    lookupCache ((ResolveF 3 cW tyW).2).singletons (TypeKey.str { typ := tyW, tag := "" }) =
      some (Value.obj tyW 0) ∧
    ((ResolveF 3 cW tyW).2).closed = false ∧
    ResolveF 3 ((ResolveF 3 cW tyW).2) tyW = (.ok (Value.obj tyW 0), (ResolveF 3 cW tyW).2) :=
  singleton_resolve_caches_and_reuses 3 2 cW ((ResolveF 3 cW tyW).2) "W" GoKind.kPtr []
    { ctor := some (mkAlloc tyW), scope := Scope.Singleton, tag := "", directFactory := none }
    (Value.obj tyW 0) rfl rfl rfl rfl

end DI
